import Mathlib

/-!
Verification of the Svar AI server (`src/app.py`), a FastAPI service that
stages an uploaded audio file, runs a Sarvam speech-to-text job, formats the
diarized transcript, and issues a single OpenAI call to obtain a summary and
action items.  The definitions below are a shallow embedding of the Python
source; theorems check the claims of the specification against them.
-/

namespace SvarAI

/-! ## Python string primitives used by `app.py` -/

/-- Python whitespace characters recognised by `str.strip()` (ASCII subset:
space, tab, linefeed, carriage return, vertical tab, form feed). -/
def isPySpace (c : Char) : Bool :=
  c == ' ' || c == '\t' || c == '\n' || c == '\r' ||
  c == Char.ofNat 11 || c == Char.ofNat 12

/-- Python `str.strip()`: remove leading and trailing whitespace. -/
def pyStrip (s : String) : String :=
  ⟨((s.data.dropWhile isPySpace).reverse.dropWhile isPySpace).reverse⟩

/-- Helper for Python `str.title()`: walk the characters keeping track of
whether the previous character was alphabetic; a letter following a
non-letter is uppercased, a letter following a letter is lowercased. -/
def pyTitleAux : Bool → List Char → List Char
  | _, [] => []
  | prevAlpha, c :: cs =>
    if c.isAlpha then
      (if prevAlpha then c.toLower else c.toUpper) :: pyTitleAux true cs
    else
      c :: pyTitleAux false cs

/-- Python `str.title()`. -/
def pyTitle (s : String) : String := ⟨pyTitleAux false s.data⟩

/-- Python `s.replace('_', ' ')` for the single-character case: map each
underscore character to a space. -/
def replaceUnderscores (s : String) : String :=
  ⟨s.data.map fun c => if c == '_' then ' ' else c⟩

/-- Python `sep.join(pieces)`. -/
def pyJoin (sep : String) : List String → String
  | [] => ""
  | [s] => s
  | s :: rest => s ++ sep ++ pyJoin sep rest

/-! ## Data model of the Sarvam output JSON -/

/-- One entry of `sarvam_result["diarized_transcript"]["entries"]`.  Each
field is optional because the Python code reads it with `dict.get` and a
default. -/
structure DiarEntry where
  speaker_id : Option String
  transcript : Option String
  deriving DecidableEq, Repr

/-- The Sarvam result JSON as consumed by `format_diarized_transcript`:
`entries` is `sarvam_result.get("diarized_transcript", {}).get("entries", [])`
(absent collapses to `[]`), and `transcript` is the optional flat field. -/
structure SarvamResult where
  entries : List DiarEntry
  transcript : Option String
  deriving DecidableEq, Repr

/-- Line 37 of the source:
`entry.get("speaker_id", "Unknown Speaker").replace('_', ' ').title()`. -/
def formatSpeaker (e : DiarEntry) : String :=
  pyTitle (replaceUnderscores (e.speaker_id.getD "Unknown Speaker"))

/-- The f-string `f"**{speaker}:** {text}"` built for one diarized entry,
where `text` is `entry.get("transcript", "")`. -/
def formatLine (e : DiarEntry) : String :=
  "**" ++ formatSpeaker e ++ ":** " ++ e.transcript.getD ""

/-- The function `format_diarized_transcript` from `app.py`: with no diarized entries it
returns `sarvam_result.get("transcript", "No content found.")`; otherwise it
joins one formatted line per entry with newlines and strips the result. -/
def format_diarized_transcript (r : SarvamResult) : String :=
  if r.entries = [] then
    r.transcript.getD "No content found."
  else
    pyStrip (pyJoin "\n" (r.entries.map formatLine))

/-! ## The OpenAI prompt built in `transcribe_audio`

The endpoint receives a `template_type` form field (default
`"meeting_notes"`), but the prompt it builds does not mention it: the
source comment says "template_type is not used in this version for
simplicity". -/

/-- The f-string `prompt` of `transcribe_audio`, as a function of the
`template_type` form field and the formatted transcript string. -/
def buildPrompt (_template_type : String) (diarized_transcript_string : String) : String :=
  "\n        Analyze the following transcript and provide two things in a JSON format:\n        1. A concise \"summary\" of the conversation.\n        2. A list of \"action_items\". If there are none, return an empty list [].\n\n        The final output must be a single, valid JSON object with the keys \"summary\" and \"action_items\".\n\n        Transcript:\n        ---\n        "
  ++ diarized_transcript_string ++ "\n        ---\n        "

/-! ## Staging path

`transcribe_audio` stages the upload at
`os.path.join("temp_processing", file.filename if file.filename else "audio.tmp")`. -/

/-- An inbound request: a request identity (distinguishing concurrent
requests) and the client-supplied filename (`None` or empty are falsy in
Python). -/
structure Request where
  id : Nat
  filename : Option String
  deriving DecidableEq, Repr

/-- Python `os.path.join(a, b)` for one component: `b` if `b` is absolute,
otherwise `a ++ "/" ++ b`. -/
def osJoin (a b : String) : String :=
  if b.data.head? = some '/' then b else a ++ "/" ++ b

/-- The storage path at which the audio artifact of a request is staged
(`temp_audio_path` in the source). -/
def stagingPath (r : Request) : String :=
  osJoin "temp_processing"
    (match r.filename with
     | some f => if f = "" then "audio.tmp" else f
     | none => "audio.tmp")

/-! ## Pipeline run model

`transcribe_audio` is a `try/except/finally` pipeline over two remote
providers.  The environment below is the oracle of everything outside the
process: whether staging the upload raises, how the Sarvam job terminates,
and what the OpenAI call returns. -/

/-- Terminal behaviour of the Sarvam transcription job as observed by the
pipeline: `wait_until_complete` raises (e.g. timeout), the job reports a
failed terminal state with a reason, or it succeeds and
`download_outputs` + `glob` yield a list of output JSON files. -/
inductive JobOutcome where
  | waitError (msg : String)
  | failed (reason : String)
  | succeeded (outputs : List SarvamResult)
  deriving DecidableEq, Repr

/-- Behaviour of the single OpenAI chat-completions call: the call raises,
the returned content is not parseable JSON (`json.loads` raises), or it
parses to an object whose `summary` / `action_items` keys may each be
absent. -/
inductive AIResponse where
  | callError (msg : String)
  | malformed (msg : String)
  | parsed (summary : Option String) (action_items : Option (List String))
  deriving DecidableEq, Repr

/-- The oracle for one pipeline run. -/
structure Env where
  mkdirFails : Bool
  stagingFails : Bool
  jobOutcome : JobOutcome
  ai : AIResponse
  deriving Repr

/-- Outcome of the HTTP request: a 200 JSON payload
`{transcript, summary, action_items}`, or an `HTTPException` with a status
code and detail string. -/
inductive PipelineResult where
  | success (transcript : String) (summary : String) (action_items : String)
  | error (status : Nat) (detail : String)
  deriving DecidableEq, Repr

/-- Whether a pipeline outcome is the 200 success payload. -/
def PipelineResult.isSuccess : PipelineResult → Bool
  | .success _ _ _ => true
  | .error _ _ => false

/-- Remote calls issued by the pipeline, in order. -/
inductive CallEvent where
  | createJob
  | uploadAudio
  | startJob
  | waitJob
  | fetchOutputs
  | aiCall
  deriving DecidableEq, Repr

/-- Local storage state: whether `temp_processing` exists and whether the
staged audio artifact inside it exists. -/
structure FS where
  tempDir : Bool
  artifact : Bool
  deriving DecidableEq, Repr

/-- Line 131 of the source: join the action items as dash-prefixed lines,
or the fixed sentinel when the list is empty. -/
def renderActionItems (items : List String) : String :=
  if items = [] then "No action items were identified."
  else pyJoin "\n" (items.map fun item => "- " ++ item)

/-- The `try` body of `transcribe_audio` together with the `except` handler
(which re-raises `HTTPException`s unchanged and wraps anything else as a
500): result, calls issued, and storage state when the body exits. -/
def runBody (env : Env) : PipelineResult × List CallEvent × FS :=
  if env.mkdirFails then
    (.error 500 "An unexpected error occurred: mkdir failed", [], ⟨false, false⟩)
  else if env.stagingFails then
    (.error 500 "An unexpected error occurred: staging failed", [], ⟨true, true⟩)
  else
    match env.jobOutcome with
    | .waitError msg =>
      (.error 500 ("An unexpected error occurred: " ++ msg),
       [.createJob, .uploadAudio, .startJob, .waitJob], ⟨true, true⟩)
    | .failed reason =>
      (.error 502 ("Sarvam job failed: " ++ reason),
       [.createJob, .uploadAudio, .startJob, .waitJob], ⟨true, true⟩)
    | .succeeded outputs =>
      match outputs with
      | [] =>
        (.error 404 "No transcript output file found from Sarvam.",
         [.createJob, .uploadAudio, .startJob, .waitJob, .fetchOutputs], ⟨true, true⟩)
      | first :: _ =>
        let transcript := format_diarized_transcript first
        match env.ai with
        | .callError msg =>
          (.error 500 ("An unexpected error occurred: " ++ msg),
           [.createJob, .uploadAudio, .startJob, .waitJob, .fetchOutputs, .aiCall],
           ⟨true, true⟩)
        | .malformed msg =>
          (.error 500 ("An unexpected error occurred: " ++ msg),
           [.createJob, .uploadAudio, .startJob, .waitJob, .fetchOutputs, .aiCall],
           ⟨true, true⟩)
        | .parsed s items =>
          (.success transcript
             (s.getD "Summary could not be generated.")
             (renderActionItems (items.getD [])),
           [.createJob, .uploadAudio, .startJob, .waitJob, .fetchOutputs, .aiCall],
           ⟨true, true⟩)

/-- The `finally` block: `if os.path.exists(temp_dir): shutil.rmtree(temp_dir)`.
Returns the storage state afterwards and how many delete operations ran. -/
def cleanup (fs : FS) : FS × Nat :=
  if fs.tempDir then (⟨false, false⟩, 1) else (fs, 0)

/-- The observable record of one request to `transcribe_audio`. -/
structure RunRecord where
  result : PipelineResult
  calls : List CallEvent
  stagedDuring : Bool
  deletions : Nat
  fsAfter : FS
  deriving Repr

/-- One full run of the `transcribe_audio` endpoint: the `try` body (with
its `except` handler) followed by the `finally` cleanup. -/
def transcribe_audio (env : Env) : RunRecord :=
  let (res, calls, fs) := runBody env
  let (fs2, d) := cleanup fs
  { result := res, calls := calls, stagedDuring := fs.artifact,
    deletions := d, fsAfter := fs2 }

/-! ## Line structure of the formatted transcript

To state "the output has one line per entry" we split a character list at
newline characters, and relate that to the newline-join performed by the
normalizer. -/

/-- Split a character list at `'\n'` (the separators are consumed);
`splitNewline []` is `[[]]`, matching the Python `"".split("\n")`. -/
def splitNewline : List Char → List (List Char)
  | [] => [[]]
  | c :: cs =>
    if c = '\n' then [] :: splitNewline cs
    else
      match splitNewline cs with
      | [] => [[c]]
      | l :: ls => (c :: l) :: ls

/-- Character-level counterpart of `pyJoin "\n"`. -/
def joinNl : List (List Char) → List Char
  | [] => []
  | [l] => l
  | l :: rest => l ++ '\n' :: joinNl rest

theorem splitNewline_ne_nil (l : List Char) : splitNewline l ≠ [] := by
  induction l with
  | nil => simp [splitNewline]
  | cons c cs ih =>
    simp only [splitNewline]
    split
    · simp
    · cases h : splitNewline cs with
      | nil => simp
      | cons x xs => simp

theorem splitNewline_of_no_newline (l : List Char) (h : '\n' ∉ l) :
    splitNewline l = [l] := by
  induction l with
  | nil => rfl
  | cons c cs ih =>
    have hc : c ≠ '\n' := fun hc => h (hc ▸ List.mem_cons_self c cs)
    have hcs : '\n' ∉ cs := fun hm => h (List.mem_cons_of_mem c hm)
    simp only [splitNewline, if_neg hc, ih hcs]

theorem splitNewline_append (l rest : List Char) (h : '\n' ∉ l) :
    splitNewline (l ++ '\n' :: rest) = l :: splitNewline rest := by
  induction l with
  | nil => simp [splitNewline]
  | cons c cs ih =>
    have hc : c ≠ '\n' := fun hc => h (hc ▸ List.mem_cons_self c cs)
    have hcs : '\n' ∉ cs := fun hm => h (List.mem_cons_of_mem c hm)
    simp only [List.cons_append, splitNewline, if_neg hc, List.append_eq, ih hcs]

theorem splitNewline_joinNl (pieces : List (List Char)) (hne : pieces ≠ [])
    (hnl : ∀ p ∈ pieces, '\n' ∉ p) :
    splitNewline (joinNl pieces) = pieces := by
  induction pieces with
  | nil => exact absurd rfl hne
  | cons p rest ih =>
    cases rest with
    | nil =>
      exact splitNewline_of_no_newline p (hnl p (List.mem_cons_self p []))
    | cons q rs =>
      have hp : '\n' ∉ p := hnl p (List.mem_cons_self p (q :: rs))
      have hrest : ∀ x ∈ q :: rs, '\n' ∉ x := fun x hx =>
        hnl x (List.mem_cons_of_mem p hx)
      show splitNewline (p ++ '\n' :: joinNl (q :: rs)) = p :: (q :: rs)
      rw [splitNewline_append p _ hp, ih (by simp) hrest]

theorem joinNl_head? (p : List Char) (rest : List (List Char)) (hp : p ≠ []) :
    (joinNl (p :: rest)).head? = p.head? := by
  cases rest with
  | nil => rfl
  | cons q rs =>
    show (p ++ '\n' :: joinNl (q :: rs)).head? = p.head?
    cases p with
    | nil => exact absurd rfl hp
    | cons c cs => rfl

theorem joinNl_getLast? (pieces : List (List Char)) (q : List Char)
    (hq : q ≠ []) (h : pieces.getLast? = some q) :
    (joinNl pieces).getLast? = q.getLast? := by
  induction pieces with
  | nil => simp at h
  | cons p rest ih =>
    cases rest with
    | nil =>
      simp only [List.getLast?_singleton] at h
      cases h
      rfl
    | cons r rs =>
      have hrest : (r :: rs).getLast? = some q := by
        rw [List.getLast?_cons_cons] at h
        exact h
      show (p ++ '\n' :: joinNl (r :: rs)).getLast? = q.getLast?
      rw [List.getLast?_append]
      have h2 : ('\n' :: joinNl (r :: rs)).getLast? = q.getLast? := by
        cases hj : joinNl (r :: rs) with
        | nil =>
          have := ih hrest
          rw [hj] at this
          simp only [List.getLast?_nil] at this
          cases q with
          | nil => exact absurd rfl hq
          | cons a as =>
            rw [List.getLast?_eq_getLast (a :: as) (by simp)] at this
            exact Option.noConfusion this
        | cons a as =>
          have := ih hrest
          rw [hj] at this
          rw [List.getLast?_cons_cons]
          exact this
      rw [h2]
      obtain ⟨c, hc⟩ : ∃ c, q.getLast? = some c := by
        cases q with
        | nil => exact absurd rfl hq
        | cons a as => exact ⟨(a :: as).getLast (by simp), List.getLast?_eq_getLast _ _⟩
      rw [hc]
      rfl

/-- The characters of `pyJoin "\n" l` form the character-level newline join. -/
theorem pyJoin_data (l : List String) :
    (pyJoin "\n" l).data = joinNl (l.map String.data) := by
  induction l with
  | nil => rfl
  | cons s rest ih =>
    cases rest with
    | nil => rfl
    | cons t rs =>
      show (s ++ "\n" ++ pyJoin "\n" (t :: rs)).data = _
      rw [String.data_append, String.data_append, ih, List.append_assoc]
      rfl

theorem dropWhile_eq_self_of_head (p : Char → Bool) (l : List Char)
    (h : ∀ c, l.head? = some c → p c = false) : l.dropWhile p = l := by
  cases l with
  | nil => rfl
  | cons c cs => simp [List.dropWhile_cons, h c rfl]

/-- Python `str.strip()` is the identity on a string whose first and last
characters are not whitespace. -/
theorem pyStrip_eq_self (s : String)
    (h1 : ∀ c, s.data.head? = some c → isPySpace c = false)
    (h2 : ∀ c, s.data.getLast? = some c → isPySpace c = false) :
    pyStrip s = s := by
  have e2 : ∀ c, s.data.reverse.head? = some c → isPySpace c = false := by
    intro c hc
    rw [List.head?_reverse] at hc
    exact h2 c hc
  unfold pyStrip
  rw [dropWhile_eq_self_of_head _ _ h1, dropWhile_eq_self_of_head _ _ e2,
    List.reverse_reverse]

/-- The characters of a formatted line, with the leading `'*'` exposed. -/
theorem formatLine_data_cons (e : DiarEntry) :
    (formatLine e).data =
      '*' :: ('*' :: (formatSpeaker e).data ++ ":** ".data ++ (e.transcript.getD "").data) := by
  simp [formatLine, String.data_append]

theorem formatLine_data_ne_nil (e : DiarEntry) : (formatLine e).data ≠ [] := by
  rw [formatLine_data_cons]
  simp

theorem formatLine_data_head? (e : DiarEntry) :
    (formatLine e).data.head? = some '*' := by
  rw [formatLine_data_cons]
  rfl

/-- When no formatted line contains a newline and the final line does not
end in whitespace, the normalizer output splits at newlines into exactly
one formatted line per diarized entry, in input order. -/
theorem format_diarized_transcript_lines (r : SarvamResult) (hne : r.entries ≠ [])
    (hnl : ∀ e ∈ r.entries, '\n' ∉ (formatLine e).data)
    (hlast : ∀ e c, r.entries.getLast? = some e →
      (formatLine e).data.getLast? = some c → isPySpace c = false) :
    splitNewline (format_diarized_transcript r).data =
      r.entries.map fun e => (formatLine e).data := by
  unfold format_diarized_transcript
  rw [if_neg hne]
  have hdata : (pyJoin "\n" (r.entries.map formatLine)).data =
      joinNl (r.entries.map fun e => (formatLine e).data) := by
    rw [pyJoin_data, List.map_map]
    rfl
  obtain ⟨elast, hlast?⟩ : ∃ e, r.entries.getLast? = some e := by
    cases hmem : r.entries with
    | nil => exact absurd hmem hne
    | cons a as => exact ⟨(a :: as).getLast (by simp), List.getLast?_eq_getLast _ _⟩
  have hpieces_last : (r.entries.map fun e => (formatLine e).data).getLast? =
      some (formatLine elast).data := by
    rw [List.getLast?_map, hlast?]
    rfl
  have hstrip : pyStrip (pyJoin "\n" (r.entries.map formatLine)) =
      pyJoin "\n" (r.entries.map formatLine) := by
    apply pyStrip_eq_self
    · intro c hc
      rw [hdata] at hc
      cases hents : r.entries with
      | nil => exact absurd hents hne
      | cons e0 rest =>
        rw [hents] at hc
        rw [show ((e0 :: rest).map fun e => (formatLine e).data) =
            (formatLine e0).data :: (rest.map fun e => (formatLine e).data) from rfl,
          joinNl_head? _ _ (formatLine_data_ne_nil e0), formatLine_data_head? e0] at hc
        cases hc
        rfl
    · intro c hc
      rw [hdata,
        joinNl_getLast? _ _ (formatLine_data_ne_nil elast) hpieces_last] at hc
      exact hlast elast c hlast? hc
  rw [hstrip, hdata]
  apply splitNewline_joinNl
  · simpa using hne
  · intro p hp
    rw [List.mem_map] at hp
    obtain ⟨e, he, rfl⟩ := hp
    exact hnl e he

/-! ## Claims -/

/-- C1, counterexample: with a successful transcription but a
non-parseable OpenAI response, the request does not degrade to
placeholders — `json.loads` raises, the generic handler turns it into an
HTTP 500, and no success payload is returned. -/
theorem C1_counterexample :
    (transcribe_audio ⟨false, false, .succeeded [⟨[], some "hi"⟩],
        .malformed "Expecting value"⟩).result =
      PipelineResult.error 500 "An unexpected error occurred: Expecting value" ∧
    (transcribe_audio ⟨false, false, .succeeded [⟨[], some "hi"⟩],
        .malformed "Expecting value"⟩).result.isSuccess = false := by
  decide

/-- C1 (amended): when transcription succeeds and the single OpenAI call
returns parseable JSON, any missing `summary` / `action_items` field is
replaced by its placeholder and the request succeeds; a failed OpenAI call
or malformed output instead fails the whole request with HTTP 500. -/
theorem C1_parsed_fields_degrade (env : Env) (out : SarvamResult)
    (rest : List SarvamResult) (s : Option String) (items : Option (List String))
    (hm : env.mkdirFails = false) (hs : env.stagingFails = false)
    (hj : env.jobOutcome = .succeeded (out :: rest)) (ha : env.ai = .parsed s items) :
    (transcribe_audio env).result =
      .success (format_diarized_transcript out)
        (s.getD "Summary could not be generated.")
        (renderActionItems (items.getD [])) := by
  obtain ⟨mk, st, job, ai⟩ := env
  cases hm
  cases hs
  cases hj
  cases ha
  rfl

/-- C1, witness at a concrete environment. -/
theorem C1_witness :
    (transcribe_audio ⟨false, false, .succeeded [⟨[], some "hi"⟩],
        .parsed none (some ["call Bob"])⟩).result =
      .success (format_diarized_transcript ⟨[], some "hi"⟩)
        ((none : Option String).getD "Summary could not be generated.")
        (renderActionItems ((some ["call Bob"]).getD [])) :=
  C1_parsed_fields_degrade _ _ _ _ _ rfl rfl rfl rfl

/-- C2: on every exit path the `finally` block removes the staging
directory, so the staged artifact is absent from storage afterwards, and
whenever the artifact was staged the delete ran exactly once. -/
theorem C2_cleanup_exactly_once (env : Env) :
    (transcribe_audio env).fsAfter.artifact = false ∧
    (transcribe_audio env).fsAfter.tempDir = false ∧
    ((transcribe_audio env).stagedDuring = true →
      (transcribe_audio env).deletions = 1) := by
  obtain ⟨mk, st, job, ai⟩ := env
  cases mk <;> cases st <;>
    (cases job with
     | waitError m => simp [transcribe_audio, runBody, cleanup]
     | failed r => simp [transcribe_audio, runBody, cleanup]
     | succeeded outs =>
       cases outs <;> cases ai <;> simp [transcribe_audio, runBody, cleanup])

/-- C2, witness at a concrete environment (provider failure path). -/
theorem C2_witness :
    (transcribe_audio ⟨false, false, .failed "bad audio",
        .parsed none none⟩).fsAfter.artifact = false ∧
    (transcribe_audio ⟨false, false, .failed "bad audio",
        .parsed none none⟩).deletions = 1 :=
  ⟨(C2_cleanup_exactly_once _).1,
   (C2_cleanup_exactly_once ⟨false, false, .failed "bad audio",
      .parsed none none⟩).2.2 (by decide)⟩

/-- C3, counterexample: the line built for an entry is
`"**Spk 0:** Hello"` (markdown bold, cosmetically normalized label), which
matches neither `"spk_0: Hello"` (raw label) nor `"Spk 0: Hello"` — the
claimed format `"<label>: <text>"` does not hold. -/
theorem C3_counterexample :
    format_diarized_transcript ⟨[⟨some "spk_0", some "Hello"⟩], none⟩ =
      "**Spk 0:** Hello" ∧
    format_diarized_transcript ⟨[⟨some "spk_0", some "Hello"⟩], none⟩ ≠
      "spk_0: Hello" ∧
    format_diarized_transcript ⟨[⟨some "spk_0", some "Hello"⟩], none⟩ ≠
      "Spk 0: Hello" := by
  decide

/-- C3 (amended): for nonempty diarized entries whose rendered lines
contain no newline and whose final rendered line does not end in
whitespace, the output has exactly one line per entry, in input order,
each of the form `"**<label>:** <text>"` where `<label>` is the speaker
label with underscores replaced by spaces and title-cased. -/
theorem C3_one_line_per_entry (r : SarvamResult) (hne : r.entries ≠ [])
    (hnl : r.entries.all (fun e => !((formatLine e).data.contains '\n')) = true)
    (hlast : (r.entries.getLast?.all fun e =>
        (formatLine e).data.getLast?.all fun c => !isPySpace c) = true) :
    splitNewline (format_diarized_transcript r).data =
      r.entries.map fun e =>
        ("**" ++ formatSpeaker e ++ ":** " ++ e.transcript.getD "").data := by
  apply format_diarized_transcript_lines r hne
  · intro e he hmem
    have h1 := List.all_eq_true.mp hnl e he
    have h2 : (formatLine e).data.contains '\n' = true := List.elem_iff.mpr hmem
    rw [h2] at h1
    exact Bool.noConfusion h1
  · intro e c he hc
    rw [he] at hlast
    rw [Option.all_some, hc, Option.all_some] at hlast
    simpa using hlast

/-- C3, witness at the two-speaker scenario from the spec. -/
theorem C3_witness :
    splitNewline (format_diarized_transcript
        ⟨[⟨some "spk_0", some "Hello"⟩, ⟨some "spk_1", some "Hi there"⟩], none⟩).data =
      [(⟨some "spk_0", some "Hello"⟩ : DiarEntry),
       ⟨some "spk_1", some "Hi there"⟩].map (fun e =>
        ("**" ++ formatSpeaker e ++ ":** " ++ e.transcript.getD "").data) :=
  C3_one_line_per_entry
    ⟨[⟨some "spk_0", some "Hello"⟩, ⟨some "spk_1", some "Hi there"⟩], none⟩
    (by decide) (by decide) (by decide)

/-- C4, counterexample: with no diarized entries and no flat transcript
field the output is `"No content found."` — with a trailing period, not
the claimed `"No content found"`. -/
theorem C4_counterexample :
    format_diarized_transcript ⟨[], none⟩ = "No content found." ∧
    format_diarized_transcript ⟨[], none⟩ ≠ "No content found" := by
  decide

/-- C4 (amended): with empty diarized entries and an absent flat
transcript field, the output is the fixed placeholder
`"No content found."`; normalization is total.  (A present-but-empty flat
field is returned as the empty string, not the placeholder.) -/
theorem C4_placeholder (r : SarvamResult) (h1 : r.entries = [])
    (h2 : r.transcript = none) :
    format_diarized_transcript r = "No content found." := by
  simp [format_diarized_transcript, h1, h2]

/-- C4, witness. -/
theorem C4_witness : format_diarized_transcript ⟨[], none⟩ = "No content found." :=
  C4_placeholder ⟨[], none⟩ rfl rfl

/-- C5, counterexample: with no diarized entries, the flat transcript
`"  hi  "` is returned verbatim; the claimed trimmed form `"hi"` (which is
what `strip` would give) is not returned. -/
theorem C5_counterexample :
    format_diarized_transcript ⟨[], some "  hi  "⟩ = "  hi  " ∧
    pyStrip "  hi  " = "hi" ∧
    format_diarized_transcript ⟨[], some "  hi  "⟩ ≠ "hi" := by
  decide

/-- C5 (amended): with empty diarized entries and a present flat
transcript, the output equals the flat text verbatim — no leading/trailing
whitespace is trimmed on this path. -/
theorem C5_flat_verbatim (r : SarvamResult) (t : String) (h1 : r.entries = [])
    (h2 : r.transcript = some t) (_h3 : t ≠ "") :
    format_diarized_transcript r = t := by
  simp [format_diarized_transcript, h1, h2]

/-- C5, witness. -/
theorem C5_witness : format_diarized_transcript ⟨[], some "  hi  "⟩ = "  hi  " :=
  C5_flat_verbatim ⟨[], some "  hi  "⟩ "  hi  " rfl rfl (by decide)

/-- C6: if the Sarvam job reports a failed terminal state, the request
fails with HTTP 502 whose detail carries the provider-supplied reason, and
no output fetch (`download_outputs`) is issued. -/
theorem C6_provider_failure (env : Env) (reason : String)
    (hm : env.mkdirFails = false) (hs : env.stagingFails = false)
    (hj : env.jobOutcome = .failed reason) :
    (transcribe_audio env).result = .error 502 ("Sarvam job failed: " ++ reason) ∧
    CallEvent.fetchOutputs ∉ (transcribe_audio env).calls := by
  obtain ⟨mk, st, job, ai⟩ := env
  cases hm
  cases hs
  cases hj
  refine ⟨rfl, ?_⟩
  intro hmem
  simp [transcribe_audio, runBody, cleanup] at hmem

/-- C6, witness with reason `"bad audio"`. -/
theorem C6_witness :
    (transcribe_audio ⟨false, false, .failed "bad audio",
        .parsed none none⟩).result = .error 502 ("Sarvam job failed: " ++ "bad audio") ∧
    CallEvent.fetchOutputs ∉ (transcribe_audio ⟨false, false, .failed "bad audio",
        .parsed none none⟩).calls :=
  C6_provider_failure _ _ rfl rfl rfl

/-- C7: a succeeded job with zero output files fails with HTTP 404
(`"No transcript output file found from Sarvam."`), a status distinct from
the 502 used for provider-reported job failure. -/
theorem C7_empty_output (env : Env)
    (hm : env.mkdirFails = false) (hs : env.stagingFails = false)
    (hj : env.jobOutcome = .succeeded []) :
    (transcribe_audio env).result =
      .error 404 "No transcript output file found from Sarvam." ∧
    (404 : Nat) ≠ 502 := by
  obtain ⟨mk, st, job, ai⟩ := env
  cases hm
  cases hs
  cases hj
  exact ⟨rfl, by decide⟩

/-- C7, witness. -/
theorem C7_witness :
    (transcribe_audio ⟨false, false, .succeeded [], .parsed none none⟩).result =
      .error 404 "No transcript output file found from Sarvam." ∧
    (404 : Nat) ≠ 502 :=
  C7_empty_output _ rfl rfl rfl

/-- C8, counterexample: the prompt sent to OpenAI is identical for
`meeting_notes` and `todo_list` — there is no template-selected framing,
contradicting the claim that the two values produce different framings. -/
theorem C8_counterexample :
    buildPrompt "meeting_notes" "Transcript text" =
      buildPrompt "todo_list" "Transcript text" := by
  rfl

/-- C8 (amended): the `template_type` form field is accepted (defaulting
to `meeting_notes`) but ignored; every template value — recognized or not —
produces the same fixed prompt framing that requests a concise summary and
a list of action items, and no template value can make the request fail. -/
theorem C8_template_ignored (t₁ t₂ transcript : String) :
    buildPrompt t₁ transcript = buildPrompt t₂ transcript :=
  rfl

/-- C9, counterexample: two distinct requests with the same client
filename stage to the same path — the path is not collision-free. -/
theorem C9_counterexample :
    (⟨1, some "a.wav"⟩ : Request) ≠ ⟨2, some "a.wav"⟩ ∧
    stagingPath ⟨1, some "a.wav"⟩ = stagingPath ⟨2, some "a.wav"⟩ ∧
    stagingPath ⟨1, some "a.wav"⟩ = "temp_processing/a.wav" := by
  decide

/-- C9 (amended): the staging path is
`temp_processing/<client filename>` (`audio.tmp` when the filename is
missing or empty) — it is determined solely by the client-supplied
filename, with no per-request unique token, so requests sharing a filename
share the path. -/
theorem C9_path_filename_determined (r₁ r₂ : Request)
    (h : r₁.filename = r₂.filename) : stagingPath r₁ = stagingPath r₂ := by
  simp [stagingPath, h]

/-- C9, witness. -/
theorem C9_witness : stagingPath ⟨1, some "a.wav"⟩ = stagingPath ⟨2, some "a.wav"⟩ :=
  C9_path_filename_determined ⟨1, some "a.wav"⟩ ⟨2, some "a.wav"⟩ rfl

/-- C10: an entry with no `speaker_id` is rendered with the default label
`"Unknown Speaker"` (which the cosmetic normalization leaves unchanged),
and an entry with no `transcript` is rendered with the empty string;
rendering is total, so missing per-entry fields never fail. -/
theorem C10_missing_fields_default (e : DiarEntry) :
    (e.speaker_id = none →
      formatLine e = "**Unknown Speaker:** " ++ e.transcript.getD "") ∧
    (e.transcript = none →
      formatLine e = "**" ++ formatSpeaker e ++ ":** ") := by
  constructor
  · intro h
    have hs : formatSpeaker e = "Unknown Speaker" := by
      simp only [formatSpeaker, h, Option.getD_none]
      decide
    show "**" ++ formatSpeaker e ++ ":** " ++ e.transcript.getD "" = _
    rw [hs]
    have hpre : ("**" ++ "Unknown Speaker" ++ ":** " : String) =
        "**Unknown Speaker:** " := by decide
    rw [hpre]
  · intro h
    show "**" ++ formatSpeaker e ++ ":** " ++ e.transcript.getD "" = _
    rw [h, Option.getD_none, String.append_empty]

/-- C10, witness at the entry with both fields missing. -/
theorem C10_witness :
    formatLine ⟨none, none⟩ =
      "**Unknown Speaker:** " ++ (Option.getD none "") :=
  (C10_missing_fields_default ⟨none, none⟩).1 rfl

end SvarAI
